import Mathlib

/-!
Shallow embedding of code of the pipecat-o1 repository: the frame data
model shared by `baml_agent.py` and `vanilla_agent.py`, the
`ConversationRecorder`, the `EnhancedBAMLProcessor`, the
`ValidationFreeDebugProcessor` chain, the startup environment checks of both
`main` functions, and the mock evaluation logic of `evaluate_agent.py`.

Python-specific conventions used throughout:
* `None`-able attributes become `Option _`; Python truthiness of strings and
  optionals (`None` and `""` are falsy) is made explicit by `optStrTruthy`.
* wall-clock readings (`time.time()`, `datetime.now().isoformat()`) and the
  latency measurement are explicit parameters, since they are inputs the
  code reads from the environment.
* a fallible external call (`b.CustomerSupport`) is a function
  `String → Option String`; `none` models the call raising an exception.
* file writes are modelled as returned values `(filename, content)`; the
  JSON content is modelled by the structure whose fields are the dict
  entries in insertion order, so equality of the structure corresponds to
  byte-identical serialized output.
-/

/-- Direction of frame flow (`pipecat.processors.frame_processor.FrameDirection`). -/
inductive FrameDirection
  | UPSTREAM
  | DOWNSTREAM
deriving DecidableEq

/-- The frame kinds imported and handled by the processors of the repository
(`pipecat.frames.frames`). Audio payloads are byte lists. -/
inductive Frame
  | StartFrame
  | EndFrame
  | TextFrame (text : String)
  | AudioRawFrame (audio : List Nat)
  | UserStartedSpeakingFrame
  | UserStoppedSpeakingFrame
deriving DecidableEq

/-- Python truthiness of an optional string: `None` and `""` are falsy. -/
def optStrTruthy : Option String → Bool
  | none => false
  | some s => !(s == "")

/-- Python truthiness of an optional number: `None` and `0` are falsy. -/
def optNumTruthy : Option ℚ → Bool
  | none => false
  | some t => decide (t ≠ 0)

/-- Speaker tag stored in a conversation entry (`"type"` key: `"user"` or `"agent"`). -/
inductive TurnType
  | user
  | agent
deriving DecidableEq

/-- One entry of `ConversationRecorder.conversation`: a dict with keys
`type`, `text`, optionally `latency_ms` (agent entries only), `timestamp`. -/
structure Turn where
  type : TurnType
  text : String
  latency_ms : Option ℚ
  timestamp : String
deriving DecidableEq

/-- State of `ConversationRecorder` (src/baml_agent.py lines 138-149). -/
structure ConversationRecorder where
  conversation : List Turn
  current_call_id : Option String
  last_user_input : Option String
  last_input_time : Option ℚ
deriving DecidableEq

/-- `ConversationRecorder.__init__`. -/
def ConversationRecorder.init : ConversationRecorder :=
  { conversation := []
    current_call_id := none
    last_user_input := none
    last_input_time := none }

/-- `ConversationRecorder.start_new_call` (lines 145-150). -/
def ConversationRecorder.start_new_call (r : ConversationRecorder) (call_id : String) :
    ConversationRecorder :=
  { r with
    current_call_id := some call_id
    conversation := []
    last_user_input := none
    last_input_time := none }

/-- `ConversationRecorder.record_user_input` (lines 152-159). `now` is the
`time.time()` reading, `ts` the `datetime.now().isoformat()` string. -/
def ConversationRecorder.record_user_input (r : ConversationRecorder) (text : String)
    (now : ℚ) (ts : String) : ConversationRecorder :=
  { r with
    last_user_input := some text
    last_input_time := some now
    conversation := r.conversation ++ [{ type := TurnType.user, text := text,
                                         latency_ms := none, timestamp := ts }] }

/-- `ConversationRecorder.record_agent_response` (lines 161-168): the append is
guarded by `if self.last_user_input and self.last_input_time:` (Python
truthiness), otherwise the method does nothing. -/
def ConversationRecorder.record_agent_response (r : ConversationRecorder) (text : String)
    (latency_ms : ℚ) (ts : String) : ConversationRecorder :=
  if optStrTruthy r.last_user_input && optNumTruthy r.last_input_time then
    { r with
      conversation := r.conversation ++ [{ type := TurnType.agent, text := text,
                                           latency_ms := some latency_ms, timestamp := ts }] }
  else r

/-- The latency samples gathered by `_calculate_avg_latency`:
`[t["latency_ms"] for t in self.conversation if "latency_ms" in t]`. -/
def ConversationRecorder.latencies (r : ConversationRecorder) : List ℚ :=
  r.conversation.filterMap Turn.latency_ms

/-- `ConversationRecorder._calculate_avg_latency` (lines 187-189):
`sum(latencies) / len(latencies) if latencies else 0`. -/
def ConversationRecorder.calculate_avg_latency (r : ConversationRecorder) : ℚ :=
  if r.latencies = [] then 0 else r.latencies.sum / (r.latencies.length : ℚ)

/-- The JSON object written by `save_call` (lines 175-181), fields in the
dict insertion order; equal structures serialize to identical bytes. -/
structure CallData where
  call_id : String
  timestamp : String
  conversation : List Turn
  total_turns : Nat
  avg_latency : ℚ
deriving DecidableEq

/-- `ConversationRecorder.save_call` (lines 170-185). The guard is
`if self.current_call_id and self.conversation:` (Python truthiness). The
method assigns no attribute, so the recorder component of the result is the
unchanged input state; the second component is the performed file write
(`none` = no file created or modified). `ts` is the `datetime.now()`
reading taken inside the method when building `call_data`. -/
def ConversationRecorder.save_call (r : ConversationRecorder) (ts : String) :
    ConversationRecorder × Option (String × CallData) :=
  match r.current_call_id with
  | none => (r, none)
  | some cid =>
      if cid = "" ∨ r.conversation = [] then (r, none)
      else
        (r, some ("evaluation/sample_calls/" ++ cid ++ ".json",
          { call_id := cid
            timestamp := ts
            conversation := r.conversation
            total_turns := (r.conversation.filter (fun t => t.type == TurnType.user)).length
            avg_latency := r.calculate_avg_latency }))

/-- Mutable attributes of `EnhancedBAMLProcessor` (src/baml_agent.py lines
192-200) other than the recorder reference, which is threaded separately. -/
structure BAMLProcessorState where
  last_user_text : Option String
  pipeline_started : Bool
  processing_response : Bool
deriving DecidableEq

/-- Ambient inputs of one `EnhancedBAMLProcessor.process_frame` call:
whether `baml_client` imported (`BAML_AVAILABLE`), the external structuring
call `b.CustomerSupport` (`none` models the call raising an exception,
`some msg` a response whose `.message` is `msg`), and the clock readings. -/
structure BamlEnv where
  baml_available : Bool
  bamlCall : String → Option String
  now : ℚ
  ts : String
  latency : ℚ

/-- `EnhancedBAMLProcessor.process_frame` (src/baml_agent.py lines 202-267).
Returns the updated processor state, the updated recorder, and the list of
`push_frame` calls performed, in order. Notes on the translation:
* lines 204-208 track `_pipeline_started` from Start/End frames;
* lines 211-213 forward and return early while not started;
* lines 216-223 capture UPSTREAM `TextFrame` text into `last_user_text` and
  the recorder, then fall through to the final `push_frame` (line 267);
* lines 226-264: on a DOWNSTREAM `TextFrame` with truthy `last_user_text`
  and not `_processing_response`, `_processing_response` is set `True`, the
  structuring call runs inside `try`; on success the BAML frame is pushed,
  `last_user_text` cleared and `_processing_response` reset before `return`;
  on exception or on the `BAML_AVAILABLE` fallback the `finally` resets
  `_processing_response` and control falls to the final `push_frame`, so in
  every exit path the net value of `_processing_response` is `false`. -/
def EnhancedBAMLProcessor.process_frame (env : BamlEnv) (s0 : BAMLProcessorState)
    (rec : ConversationRecorder) (frame : Frame) (dir : FrameDirection) :
    BAMLProcessorState × ConversationRecorder × List (Frame × FrameDirection) :=
  let s :=
    if frame = Frame.StartFrame then { s0 with pipeline_started := true }
    else if frame = Frame.EndFrame then { s0 with pipeline_started := false }
    else s0
  if s.pipeline_started = false then
    (s, rec, [(frame, dir)])
  else
    match frame with
    | Frame.TextFrame t =>
        if dir = FrameDirection.UPSTREAM ∧ s.processing_response = false then
          ({ s with last_user_text := some t },
           rec.record_user_input t env.now env.ts,
           [(frame, dir)])
        else if dir = FrameDirection.DOWNSTREAM ∧ optStrTruthy s.last_user_text = true
                ∧ s.processing_response = false then
          match s.last_user_text with
          | some u =>
              if env.baml_available then
                match env.bamlCall u with
                | some msg =>
                    ({ s with last_user_text := none, processing_response := false },
                     rec.record_agent_response msg env.latency env.ts,
                     [(Frame.TextFrame msg, dir)])
                | none =>
                    ({ s with processing_response := false }, rec, [(frame, dir)])
              else
                ({ s with processing_response := false }, rec, [(frame, dir)])
          | none => (s, rec, [(frame, dir)])
        else (s, rec, [(frame, dir)])
    | _ => (s, rec, [(frame, dir)])

/-- `ValidationFreeDebugProcessor.process_frame` (src/vanilla_agent.py lines
62-98, identical in src/baml_agent.py lines 97-135). The state is the
`_pipeline_started` flag; every frame is logged and then pushed through
unchanged (`await self.push_frame(frame, direction)`), with any error
swallowed by the surrounding `try`. -/
def ValidationFreeDebugProcessor.process_frame (started : Bool) (frame : Frame)
    (dir : FrameDirection) : Bool × List (Frame × FrameDirection) :=
  let started :=
    if frame = Frame.StartFrame then true
    else if frame = Frame.EndFrame then false
    else started
  (started, [(frame, dir)])

/-- Feed a list of frames, in order, through one `ValidationFreeDebugProcessor`
stage; returns the final `_pipeline_started` flag and the concatenation of the
frames it pushed onward. -/
def debugStageRun (started : Bool) :
    List (Frame × FrameDirection) → Bool × List (Frame × FrameDirection)
  | [] => (started, [])
  | fd :: rest =>
      let r1 := ValidationFreeDebugProcessor.process_frame started fd.1 fd.2
      let r2 := debugStageRun r1.1 rest
      (r2.1, r1.2 ++ r2.2)

/-- A pipeline chain of `ValidationFreeDebugProcessor`s, as assembled by
`Pipeline([...])` and driven head-first by `manually_start_pipeline`, which
delivers each injected frame to the first processor, whose pushed frames are
delivered to the next, and so on. The first result component is the final
per-stage `_pipeline_started` flags; the second lists, stage by stage, the
frames each stage observed (was given to process). -/
def debugChainRun (states : List Bool) (inputs : List (Frame × FrameDirection)) :
    List Bool × List (List (Frame × FrameDirection)) :=
  match states with
  | [] => ([], [])
  | s :: rest =>
      let r1 := debugStageRun s inputs
      let r2 := debugChainRun rest r1.2
      (r1.1 :: r2.1, inputs :: r2.2)

/-- Data (non-lifecycle) frames: everything except Start/End. -/
def Frame.isData : Frame → Bool
  | Frame.StartFrame => false
  | Frame.EndFrame => false
  | _ => true

/-- `true` iff some data frame occurs in the list before any `StartFrame`
has occurred (in particular when a data frame occurs and no `StartFrame`
ever does). -/
def seenDataBeforeStart : List (Frame × FrameDirection) → Bool
  | [] => false
  | fd :: rest =>
      if fd.1 = Frame.StartFrame then false
      else if fd.1.isData then true
      else seenDataBeforeStart rest

/-- The startup environment: the values `os.getenv` returns for the
credential/endpoint variables the two `main` functions look at
(`none` = unset; `some ""` is falsy in Python and counts as missing). -/
structure Env where
  OPENAI_API_KEY : Option String
  DAILY_TOKEN : Option String
  CARTESIA_API_KEY : Option String
  DAILY_ROOM_URL : Option String
  DEEPGRAM_API_KEY : Option String

/-- The `required_env_vars` dict built by `main` in src/baml_agent.py lines
301-309, as (name, value) pairs in insertion order; `DEEPGRAM_API_KEY` is
added only when `DEEPGRAM_AVAILABLE`. -/
def baml_required_env_vars (deepgram_available : Bool) (env : Env) :
    List (String × Option String) :=
  [("OPENAI_API_KEY", env.OPENAI_API_KEY),
   ("DAILY_TOKEN", env.DAILY_TOKEN),
   ("CARTESIA_API_KEY", env.CARTESIA_API_KEY),
   ("DAILY_ROOM_URL", env.DAILY_ROOM_URL)]
  ++ (if deepgram_available then [("DEEPGRAM_API_KEY", env.DEEPGRAM_API_KEY)] else [])

/-- The `required_vars` list checked by `main` in src/vanilla_agent.py
line 147, paired with the values `os.getenv` returns for them. -/
def vanilla_required_env_vars (env : Env) : List (String × Option String) :=
  [("OPENAI_API_KEY", env.OPENAI_API_KEY),
   ("DAILY_TOKEN", env.DAILY_TOKEN),
   ("DAILY_ROOM_URL", env.DAILY_ROOM_URL)]

/-- `missing_vars = [var for var, value in required_env_vars.items() if not value]`
(src/baml_agent.py line 317). -/
def baml_missing_vars (deepgram_available : Bool) (env : Env) : List String :=
  (baml_required_env_vars deepgram_available env).filterMap
    (fun p => if optStrTruthy p.2 then none else some p.1)

/-- `missing_vars = [var for var in required_vars if not os.getenv(var)]`
(src/vanilla_agent.py line 154). -/
def vanilla_missing_vars (env : Env) : List String :=
  (vanilla_required_env_vars env).filterMap
    (fun p => if optStrTruthy p.2 then none else some p.1)

/-- Outcome of the startup phase of a `main` function: either it stops before any
`Pipeline([...])` is constructed, reporting the listed missing variable
names to the operator, or it goes on to build the pipeline. -/
inductive MainOutcome
  | exited (missing : List String)
  | builtPipeline
deriving DecidableEq

/-- Startup phase of `main` in src/baml_agent.py (lines 300-320): when
`missing_vars` is nonempty the names are printed and `sys.exit(1)` runs,
before the `Pipeline([...])` construction at line 396. -/
def baml_main_startup (deepgram_available : Bool) (env : Env) : MainOutcome :=
  let missing := baml_missing_vars deepgram_available env
  if missing = [] then MainOutcome.builtPipeline else MainOutcome.exited missing

/-- Startup phase of `main` in src/vanilla_agent.py (lines 146-157): when
`missing_vars` is nonempty the names are printed and `main` returns, before
`create_fixed_simple_agent` builds the `Pipeline([...])` at line 131. -/
def vanilla_main_startup (env : Env) : MainOutcome :=
  let missing := vanilla_missing_vars env
  if missing = [] then MainOutcome.builtPipeline else MainOutcome.exited missing

/-- `needle` chars are a leading segment of `haystack` chars. -/
def startsWithChars : List Char → List Char → Bool
  | [], _ => true
  | _ :: _, [] => false
  | c :: cs, d :: ds => c == d && startsWithChars cs ds

/-- `needle` chars occur contiguously somewhere in `haystack` chars. -/
def containsChars (needle : List Char) : List Char → Bool
  | [] => startsWithChars needle []
  | d :: ds => startsWithChars needle (d :: ds) || containsChars needle ds

/-- The Python test `needle in haystack` for strings. -/
def pyInStr (needle haystack : String) : Bool :=
  containsChars needle.data haystack.data

/-- The Python `str.lower()` method (the inputs in the repository are ASCII). -/
def lowerStr (s : String) : String :=
  ⟨s.data.map Char.toLower⟩

/-- `AgentEvaluator._simulate_conversation` (src/evaluate_agent.py lines
292-322): after a simulated delay it returns a canned response chosen by
substring tests on `user_input.lower()`; the `agent` argument is never
used. -/
def simulate_conversation {α : Type} (_agent : α) (user_input : String) : String :=
  let lo := lowerStr user_input
  if pyInStr "business hours" lo then
    "Our business hours are Monday through Friday, 9 AM to 6 PM EST."
  else if pyInStr "premium plan" lo then
    "Our premium plan includes advanced features, priority support, and unlimited usage for $29/month."
  else if pyInStr "can\x27t log in" lo then
    "I can help you with that. Let me check your account status. Can you provide your username?"
  else if pyInStr "charged twice" lo then
    "I apologize for the double charge. Let me investigate this billing issue for you."
  else if pyInStr "mobile app" lo then
    "Thank you for the feature request. I\x27ll forward this to our development team."
  else if pyInStr "service was down" lo then
    "I sincerely apologize for the service interruption. We experienced technical difficulties yesterday."
  else if pyInStr "change password" lo then
    "To change your password, go to Account Settings > Security > Change Password."
  else if pyInStr "difference between plans" lo then
    "We offer three plans: Basic ($9/month), Standard ($19/month), and Premium ($29/month)."
  else if pyInStr "work with slack" lo then
    "Yes, our service integrates with Slack through our official integration."
  else if pyInStr "speak to supervisor" lo then
    "I understand you\x27d like to speak with a supervisor. Let me transfer you to our escalation team."
  else
    "I understand your request. Let me help you with that."

/-- The eleven canned strings `_simulate_conversation` can return. -/
def cannedResponses : List String :=
  ["Our business hours are Monday through Friday, 9 AM to 6 PM EST.",
   "Our premium plan includes advanced features, priority support, and unlimited usage for $29/month.",
   "I can help you with that. Let me check your account status. Can you provide your username?",
   "I apologize for the double charge. Let me investigate this billing issue for you.",
   "Thank you for the feature request. I\x27ll forward this to our development team.",
   "I sincerely apologize for the service interruption. We experienced technical difficulties yesterday.",
   "To change your password, go to Account Settings > Security > Change Password.",
   "We offer three plans: Basic ($9/month), Standard ($19/month), and Premium ($29/month).",
   "Yes, our service integrates with Slack through our official integration.",
   "I understand you\x27d like to speak with a supervisor. Let me transfer you to our escalation team.",
   "I understand your request. Let me help you with that."]

/-- `TestResult` dataclass (src/evaluate_agent.py lines 31-44). The `latency`
and `accuracy` dicts are association lists keyed by strings. -/
structure TestResult where
  scenario_id : String
  agent_type : String
  timestamp : String
  latency : List (String × ℚ)
  accuracy : List (String × ℚ)
  handoff_success : Bool
  error_occurred : Bool
  error_message : String
  response_text : String
  context_retained : Bool
  intent_recognized : Bool
deriving DecidableEq

/-- `EvaluationMetrics` dataclass (src/evaluate_agent.py lines 46-56). -/
structure EvaluationMetrics where
  agent_type : String
  total_tests : Nat
  avg_latency : List (String × ℚ)
  avg_accuracy : List (String × ℚ)
  handoff_success_rate : ℚ
  error_rate : ℚ
  context_retention_rate : ℚ
  intent_recognition_rate : ℚ
deriving DecidableEq

/-- The Python `d.get(key, default)` operation on a dict. -/
def dictGet (d : List (String × ℚ)) (k : String) (default : ℚ) : ℚ :=
  match d.lookup k with
  | some v => v
  | none => default

/-- The Python `key in d` test on a dict. -/
def dictHas (d : List (String × ℚ)) (k : String) : Bool :=
  (d.lookup k).isSome

/-- One entry of the averaging loops in `calculate_metrics` (lines 360-368):
`values = [r.latency.get(key, 0) for r in agent_results if key in r.latency]`
then `sum(values) / len(values) if values else 0`. -/
def avgForKey (rs : List TestResult) (proj : TestResult → List (String × ℚ))
    (key : String) : ℚ :=
  let values := (rs.filter (fun r => dictHas (proj r) key)).map
    (fun r => dictGet (proj r) key 0)
  if values = [] then 0 else values.sum / (values.length : ℚ)

/-- Keys averaged for `avg_latency` (line 361). -/
def latency_keys : List String := ["agent_creation", "conversation", "total"]

/-- Keys averaged for `avg_accuracy` (line 366). -/
def accuracy_keys : List String :=
  ["overall", "intent_recognition", "context_retention", "handoff_appropriate"]

/-- `sum(1 for r in agent_results if pred(r))` as a rational. -/
def countTrue (rs : List TestResult) (p : TestResult → Bool) : ℚ :=
  ((rs.filter p).length : ℚ)

/-- `AgentEvaluator.calculate_metrics` (src/evaluate_agent.py lines 343-386):
filters results to the requested agent type; on an empty filter returns the
all-zero record with empty average dicts; otherwise averages present keys
and divides the success counts by `total_tests`. -/
def calculate_metrics (results : List TestResult) (agent_type : String) :
    EvaluationMetrics :=
  let agent_results := results.filter (fun r => r.agent_type == agent_type)
  if agent_results = [] then
    { agent_type := agent_type
      total_tests := 0
      avg_latency := []
      avg_accuracy := []
      handoff_success_rate := 0
      error_rate := 0
      context_retention_rate := 0
      intent_recognition_rate := 0 }
  else
    let total : ℚ := (agent_results.length : ℚ)
    { agent_type := agent_type
      total_tests := agent_results.length
      avg_latency := latency_keys.map (fun k => (k, avgForKey agent_results TestResult.latency k))
      avg_accuracy := accuracy_keys.map (fun k => (k, avgForKey agent_results TestResult.accuracy k))
      handoff_success_rate := countTrue agent_results TestResult.handoff_success / total
      error_rate := countTrue agent_results TestResult.error_occurred / total
      context_retention_rate := countTrue agent_results TestResult.context_retained / total
      intent_recognition_rate := countTrue agent_results TestResult.intent_recognized / total }

/-! Concrete states used by witnesses and counterexamples. -/

/-- A `BamlEnv` whose structuring call always raises. -/
def envAlwaysFail : BamlEnv :=
  { baml_available := true
    bamlCall := fun _ => none
    now := 0
    ts := "T0"
    latency := 42 }

/-- A started `EnhancedBAMLProcessor` holding a pending user utterance. -/
def sRunning : BAMLProcessorState :=
  { last_user_text := some "hello", pipeline_started := true, processing_response := false }

/-- An `EnhancedBAMLProcessor` that has not yet observed a `StartFrame`. -/
def sNotStarted : BAMLProcessorState :=
  { last_user_text := none, pipeline_started := false, processing_response := false }

/-- A recorder with a call id and one recorded user turn. -/
def sampleRecorder : ConversationRecorder :=
  (ConversationRecorder.init.start_new_call "call_1").record_user_input "hello" 100 "T0"

/-- A recorder whose conversation carries agent latencies 100, 200, 300 ms. -/
def recorderLat3 : ConversationRecorder :=
  { conversation :=
      [{ type := TurnType.agent, text := "a", latency_ms := some 100, timestamp := "T1" },
       { type := TurnType.agent, text := "b", latency_ms := some 200, timestamp := "T2" },
       { type := TurnType.agent, text := "c", latency_ms := some 300, timestamp := "T3" }]
    current_call_id := some "c1"
    last_user_input := some "u"
    last_input_time := some 1 }

/-- An environment in which only `CARTESIA_API_KEY` is unset. -/
def envMissingCartesia : Env :=
  { OPENAI_API_KEY := some "sk-1"
    DAILY_TOKEN := some "tok"
    CARTESIA_API_KEY := none
    DAILY_ROOM_URL := some "https://x.daily.co/room"
    DEEPGRAM_API_KEY := some "dg" }

/-- An environment in which every credential is unset. -/
def envAllMissing : Env :=
  { OPENAI_API_KEY := none
    DAILY_TOKEN := none
    CARTESIA_API_KEY := none
    DAILY_ROOM_URL := none
    DEEPGRAM_API_KEY := none }

/-- The content `save_call` writes for `sampleRecorder` at clock reading "T1". -/
def sampleCallData : CallData :=
  { call_id := "call_1"
    timestamp := "T1"
    conversation := sampleRecorder.conversation
    total_turns := 1
    avg_latency := 0 }

/-! The claims. -/

/-- Claim C1: whenever the structuring (BAML) call raises an exception,
`EnhancedBAMLProcessor.process_frame` catches the failure locally and
forwards the original frame unchanged in its original direction — the
embedding is a total function, so no exception escapes — and in particular
when the structuring layer always fails the frames pushed are exactly the
incoming frame with its incoming direction, for every state, recorder,
frame (including any `TextFrame`) and direction. -/
theorem C1_fallback_on_failure (env : BamlEnv) (h : ∀ t, env.bamlCall t = none)
    (s : BAMLProcessorState) (rec : ConversationRecorder) (frame : Frame)
    (dir : FrameDirection) :
    (EnhancedBAMLProcessor.process_frame env s rec frame dir).2.2 = [(frame, dir)] := by
  unfold EnhancedBAMLProcessor.process_frame
  simp only [h]
  repeat' split
  all_goals rfl

/-- Witness for C1 at a concrete running state and DOWNSTREAM text frame. -/
theorem C1_fallback_witness :
    (∀ t, envAlwaysFail.bamlCall t = none)
    ∧ (EnhancedBAMLProcessor.process_frame envAlwaysFail sRunning ConversationRecorder.init
        (Frame.TextFrame "llm response") FrameDirection.DOWNSTREAM).2.2
      = [(Frame.TextFrame "llm response", FrameDirection.DOWNSTREAM)] :=
  ⟨fun _ => rfl,
   C1_fallback_on_failure envAlwaysFail (fun _ => rfl) sRunning ConversationRecorder.init
     (Frame.TextFrame "llm response") FrameDirection.DOWNSTREAM⟩

/-- Claim C6: a non-control frame (neither `StartFrame` nor `EndFrame`)
delivered while the processor has not observed a `StartFrame` is forwarded
unchanged in the same direction, with the processor state and the recorder
left untouched and no structuring call consulted (the result is the same
for every `BamlEnv`). -/
theorem C6_not_started_passthrough (env : BamlEnv) (s : BAMLProcessorState)
    (rec : ConversationRecorder) (frame : Frame) (dir : FrameDirection)
    (hns : s.pipeline_started = false)
    (h1 : frame ≠ Frame.StartFrame) (h2 : frame ≠ Frame.EndFrame) :
    EnhancedBAMLProcessor.process_frame env s rec frame dir = (s, rec, [(frame, dir)]) := by
  unfold EnhancedBAMLProcessor.process_frame
  simp [h1, h2, hns]

/-- Witness for C6 at a concrete not-started state and a text frame. -/
theorem C6_not_started_witness :
    sNotStarted.pipeline_started = false
    ∧ EnhancedBAMLProcessor.process_frame envAlwaysFail sNotStarted ConversationRecorder.init
        (Frame.TextFrame "early") FrameDirection.DOWNSTREAM
      = (sNotStarted, ConversationRecorder.init,
         [(Frame.TextFrame "early", FrameDirection.DOWNSTREAM)]) :=
  ⟨rfl,
   C6_not_started_passthrough envAlwaysFail sNotStarted ConversationRecorder.init
     (Frame.TextFrame "early") FrameDirection.DOWNSTREAM rfl
     (by decide) (by decide)⟩

/-- Claim C4: `_calculate_avg_latency` returns the arithmetic mean of the
recorded latencies — it satisfies `avg * count = sum`, returns `0` on zero
samples rather than failing, and on latencies [100, 200, 300] returns 200. -/
theorem C4_latency_aggregation :
    (∀ r : ConversationRecorder,
        r.calculate_avg_latency * (r.latencies.length : ℚ) = r.latencies.sum
        ∧ (r.latencies = [] → r.calculate_avg_latency = 0))
    ∧ recorderLat3.calculate_avg_latency = 200
    ∧ ConversationRecorder.init.calculate_avg_latency = 0 := by
  refine ⟨fun r => ⟨?_, ?_⟩, ?_, by decide⟩
  case refine_3 =>
    have hl : recorderLat3.latencies = [100, 200, 300] := rfl
    rw [ConversationRecorder.calculate_avg_latency, hl, if_neg (by simp)]
    norm_num
  · unfold ConversationRecorder.calculate_avg_latency
    split
    · rename_i hnil
      simp [hnil]
    · rename_i hnil
      have hn : (r.latencies.length : ℚ) ≠ 0 := by
        exact_mod_cast fun hz => hnil (List.length_eq_zero.mp hz)
      exact div_mul_cancel₀ _ hn
  · intro h
    simp [ConversationRecorder.calculate_avg_latency, h]

/-- Witness for C4: the zero-sample case evaluated on the fresh recorder. -/
theorem C4_latency_witness :
    ConversationRecorder.init.latencies = []
    ∧ ConversationRecorder.init.calculate_avg_latency = 0 :=
  ⟨rfl, (C4_latency_aggregation.1 ConversationRecorder.init).2 rfl⟩

/-- Counterexample to claim C5 as stated: on the freshly constructed
recorder (no prior `record_user_input`), `record_agent_response` does not
grow the conversation by one — it appends nothing at all. -/
theorem C5_counterexample :
    (ConversationRecorder.init.record_agent_response "hi" 100 "T0").conversation.length ≠
      ConversationRecorder.init.conversation.length + 1 := by decide

/-- Claim C5 amended: `record_user_input` always appends exactly one user
turn carrying the given text; `record_agent_response` appends exactly one
agent turn carrying the given text and latency when a user input has been
recorded (`last_user_input` and `last_input_time` are truthy), and
otherwise leaves the recorder completely unchanged. -/
theorem C5_append_behavior (r : ConversationRecorder) (text : String)
    (now latency_ms : ℚ) (ts : String) :
    ((r.record_user_input text now ts).conversation.length = r.conversation.length + 1
      ∧ (r.record_user_input text now ts).conversation.getLast? =
          some { type := TurnType.user, text := text, latency_ms := none, timestamp := ts })
    ∧ ((optStrTruthy r.last_user_input && optNumTruthy r.last_input_time) = true →
        (r.record_agent_response text latency_ms ts).conversation.length =
            r.conversation.length + 1
          ∧ (r.record_agent_response text latency_ms ts).conversation.getLast? =
              some { type := TurnType.agent, text := text,
                     latency_ms := some latency_ms, timestamp := ts })
    ∧ ((optStrTruthy r.last_user_input && optNumTruthy r.last_input_time) = false →
        r.record_agent_response text latency_ms ts = r) := by
  refine ⟨⟨?_, ?_⟩, fun hg => ⟨?_, ?_⟩, fun hg => ?_⟩
  · simp [ConversationRecorder.record_user_input]
  · simp [ConversationRecorder.record_user_input]
  · simp [ConversationRecorder.record_agent_response, hg]
  · simp [ConversationRecorder.record_agent_response, hg]
  · simp [ConversationRecorder.record_agent_response, hg]

/-- Witness for C5 at a concrete recorder that has seen a user input. -/
theorem C5_append_witness :
    (optStrTruthy sampleRecorder.last_user_input &&
        optNumTruthy sampleRecorder.last_input_time) = true
    ∧ (sampleRecorder.record_agent_response "reply" 250 "T1").conversation.length =
        sampleRecorder.conversation.length + 1 :=
  ⟨by decide,
   ((C5_append_behavior sampleRecorder "reply" 0 250 "T1").2.1 (by decide)).1⟩

/-- Claim C9: `save_call` on a recorder with no call id or an empty
conversation performs no file write and leaves the recorder state
unchanged. -/
theorem C9_no_empty_save (r : ConversationRecorder) (ts : String)
    (h : r.current_call_id = none ∨ r.conversation = []) :
    r.save_call ts = (r, none) := by
  unfold ConversationRecorder.save_call
  rcases h with h | h
  · simp [h]
  · cases hc : r.current_call_id with
    | none => rfl
    | some cid => simp [h]

/-- Witness for C9: a call with an id but zero recorded turns is not
persisted. -/
theorem C9_no_empty_save_witness :
    (ConversationRecorder.init.start_new_call "c9").conversation = []
    ∧ (ConversationRecorder.init.start_new_call "c9").save_call "T0" =
        (ConversationRecorder.init.start_new_call "c9", none) :=
  ⟨rfl, C9_no_empty_save (ConversationRecorder.init.start_new_call "c9") "T0" (Or.inr rfl)⟩

/-- Counterexample to claim C3 as stated: two `save_call` invocations on the
same recorder state, with no intervening records, write different bytes,
because `save_call` stamps the file with `datetime.now().isoformat()` taken
at save time and the two wall-clock readings differ. -/
theorem C3_counterexample :
    (sampleRecorder.save_call "2025-01-01T00:00:00").2 ≠
      (sampleRecorder.save_call "2025-01-01T00:00:00.000001").2 := by decide

/-- `save_call` assigns no attribute: the recorder component of its result
is the input state. -/
lemma save_call_fst (r : ConversationRecorder) (ts : String) : (r.save_call ts).1 = r := by
  unfold ConversationRecorder.save_call
  split
  · rfl
  · split <;> rfl

/-- Inversion of a successful `save_call`: the file name and every content
field are determined by the recorder state, except `timestamp`, which is the
clock reading at save time. -/
lemma save_call_eq_some (r : ConversationRecorder) (ts f : String) (d : CallData)
    (h : (r.save_call ts).2 = some (f, d)) :
    ∃ cid, r.current_call_id = some cid
      ∧ f = "evaluation/sample_calls/" ++ cid ++ ".json"
      ∧ d = { call_id := cid, timestamp := ts, conversation := r.conversation,
              total_turns := (r.conversation.filter (fun t => t.type == TurnType.user)).length,
              avg_latency := r.calculate_avg_latency } := by
  unfold ConversationRecorder.save_call at h
  split at h
  · simp at h
  · rename_i cid hc
    split at h
    · simp at h
    · simp only [Option.some.injEq, Prod.mk.injEq] at h
      exact ⟨cid, hc, h.1.symm, h.2.symm⟩

/-- Claim C3 amended: with no intervening records, two successful saves
target the same file and agree on every persisted field except the
top-level `timestamp`, which records the clock reading of each save; two
saves at an equal clock reading are byte-identical, and a save leaves the
recorder state unchanged. -/
theorem C3_save_deterministic (r : ConversationRecorder) (ts1 ts2 f1 f2 : String)
    (d1 d2 : CallData)
    (h1 : (r.save_call ts1).2 = some (f1, d1))
    (h2 : (r.save_call ts2).2 = some (f2, d2)) :
    f1 = f2 ∧ d1.call_id = d2.call_id ∧ d1.conversation = d2.conversation
      ∧ d1.total_turns = d2.total_turns ∧ d1.avg_latency = d2.avg_latency
      ∧ d1.timestamp = ts1 ∧ d2.timestamp = ts2
      ∧ (r.save_call ts1).1 = r
      ∧ (ts1 = ts2 → (r.save_call ts1).2 = (r.save_call ts2).2) := by
  obtain ⟨cid1, hc1, hf1, hd1⟩ := save_call_eq_some r ts1 f1 d1 h1
  obtain ⟨cid2, hc2, hf2, hd2⟩ := save_call_eq_some r ts2 f2 d2 h2
  rw [hc1] at hc2
  injection hc2 with hcid
  subst hcid
  subst hf1 hf2 hd1 hd2
  exact ⟨rfl, rfl, rfl, rfl, rfl, rfl, rfl, save_call_fst r ts1,
         fun hts => by rw [hts]⟩

/-- Witness for C3: two saves of the sample recorder at the same clock
reading produce the same write, and the save leaves the state unchanged. -/
theorem C3_save_witness :
    (sampleRecorder.save_call "T1").2 =
      some ("evaluation/sample_calls/call_1.json", sampleCallData)
    ∧ (sampleRecorder.save_call "T1").1 = sampleRecorder :=
  ⟨by decide,
   (C3_save_deterministic sampleRecorder "T1" "T1"
      "evaluation/sample_calls/call_1.json" "evaluation/sample_calls/call_1.json"
      sampleCallData sampleCallData (by decide) (by decide)).2.2.2.2.2.2.2.1⟩

/-- A `ValidationFreeDebugProcessor` stage pushes onward exactly the frames
it was fed, in order: it performs no buffering, dropping, or reordering. -/
lemma debugStageRun_outputs (started : Bool) (inputs : List (Frame × FrameDirection)) :
    (debugStageRun started inputs).2 = inputs := by
  induction inputs generalizing started with
  | nil => rfl
  | cons fd rest ih =>
      simp [debugStageRun, ValidationFreeDebugProcessor.process_frame, ih]

/-- In a chain of `ValidationFreeDebugProcessor`s, every stage observes
exactly the sequence injected at the head. -/
lemma debugChainRun_obs (states : List Bool) (inputs : List (Frame × FrameDirection)) :
    ∀ obs ∈ (debugChainRun states inputs).2, obs = inputs := by
  induction states generalizing inputs with
  | nil =>
      intro obs hobs
      simp [debugChainRun] at hobs
  | cons s rest ih =>
      intro obs hobs
      simp only [debugChainRun, debugStageRun_outputs, List.mem_cons] at hobs
      rcases hobs with h | h
      · exact h
      · exact ih inputs obs (by simpa [debugStageRun_outputs] using h)

/-- Counterexample to claim C2 as stated: the processors of the repository are
constructed with validation bypassed (`self._started = True`,
`_check_started` overridden to a no-op) and forward every frame regardless
of lifecycle state, so when the transport delivers a data frame to the
pipeline head before the `StartFrame` injected by `manually_start_pipeline`
(which the code only injects after a one-second sleep), the second
processor of a two-stage chain observes the data frame before it has
observed the start signal. -/
theorem C2_counterexample :
    seenDataBeforeStart
      ((debugChainRun [false, false]
          [(Frame.TextFrame "hello", FrameDirection.DOWNSTREAM),
           (Frame.StartFrame, FrameDirection.DOWNSTREAM)]).2.getD 1 []) = true := by decide

/-- Claim C2 amended: the chain preserves frame order, so start-frame
ordering holds exactly when the injection order at the head already
respects it: if no data frame is delivered to the head before the start
signal, then no stage of the chain observes a data frame before it
observes the start signal. -/
theorem C2_start_first_preserved (states : List Bool)
    (inputs : List (Frame × FrameDirection))
    (h : seenDataBeforeStart inputs = false) :
    ∀ obs ∈ (debugChainRun states inputs).2, seenDataBeforeStart obs = false := by
  intro obs hobs
  rw [debugChainRun_obs states inputs obs hobs]
  exact h

/-- Witness for C2 at a two-stage chain whose head receives the start
signal first. -/
theorem C2_start_first_witness :
    seenDataBeforeStart
        [(Frame.StartFrame, FrameDirection.DOWNSTREAM),
         (Frame.TextFrame "hi", FrameDirection.DOWNSTREAM)] = false
    ∧ ∀ obs ∈ (debugChainRun [false, false]
        [(Frame.StartFrame, FrameDirection.DOWNSTREAM),
         (Frame.TextFrame "hi", FrameDirection.DOWNSTREAM)]).2,
        seenDataBeforeStart obs = false :=
  ⟨by decide, C2_start_first_preserved [false, false] _ (by decide)⟩

/-- A pair with an untruthy value contributes its name to the missing list. -/
lemma mem_missing_of_untruthy (l : List (String × Option String))
    (p : String × Option String) (hp : p ∈ l) (hf : optStrTruthy p.2 = false) :
    p.1 ∈ l.filterMap (fun q => if optStrTruthy q.2 then none else some q.1) := by
  rw [List.mem_filterMap]
  exact ⟨p, hp, by simp [hf]⟩

/-- Counterexample to claim C7 as stated: with `CARTESIA_API_KEY` unset and
every other variable set, `main` in src/vanilla_agent.py does not stop — it
proceeds to build the pipeline, because its `required_vars` list omits
`CARTESIA_API_KEY`. -/
theorem C7_counterexample :
    optStrTruthy envMissingCartesia.CARTESIA_API_KEY = false
    ∧ vanilla_main_startup envMissingCartesia = MainOutcome.builtPipeline := by decide

/-- Claim C7 amended: each `main` treats its own required-variable list as
fatal-at-startup: whenever any variable of that list is unset or empty, the
startup phase stops before any `Pipeline` is constructed and reports a
nonempty missing list containing the name of every such variable. The
`baml_agent` list is made of the four variables of the claim (plus `DEEPGRAM_API_KEY`
when the Deepgram import succeeded); the `vanilla_agent` list contains only
`OPENAI_API_KEY`, `DAILY_TOKEN` and `DAILY_ROOM_URL` — `CARTESIA_API_KEY`
is not required by that variant. -/
theorem C7_startup_env_check (env : Env) (da : Bool) :
    ((∃ p ∈ baml_required_env_vars da env, optStrTruthy p.2 = false) →
        baml_main_startup da env = MainOutcome.exited (baml_missing_vars da env)
        ∧ baml_missing_vars da env ≠ []
        ∧ ∀ p ∈ baml_required_env_vars da env, optStrTruthy p.2 = false →
            p.1 ∈ baml_missing_vars da env)
    ∧ ((∃ p ∈ vanilla_required_env_vars env, optStrTruthy p.2 = false) →
        vanilla_main_startup env = MainOutcome.exited (vanilla_missing_vars env)
        ∧ vanilla_missing_vars env ≠ []
        ∧ ∀ p ∈ vanilla_required_env_vars env, optStrTruthy p.2 = false →
            p.1 ∈ vanilla_missing_vars env)
    ∧ "CARTESIA_API_KEY" ∉ (vanilla_required_env_vars env).map Prod.fst := by
  refine ⟨fun hex => ?_, fun hex => ?_, by simp [vanilla_required_env_vars]⟩
  · obtain ⟨p, hp, hf⟩ := hex
    have hmem := mem_missing_of_untruthy _ p hp hf
    have hne : baml_missing_vars da env ≠ [] := List.ne_nil_of_mem hmem
    refine ⟨?_, hne, fun q hq hqf => mem_missing_of_untruthy _ q hq hqf⟩
    unfold baml_main_startup
    simp [hne]
  · obtain ⟨p, hp, hf⟩ := hex
    have hmem := mem_missing_of_untruthy _ p hp hf
    have hne : vanilla_missing_vars env ≠ [] := List.ne_nil_of_mem hmem
    refine ⟨?_, hne, fun q hq hqf => mem_missing_of_untruthy _ q hq hqf⟩
    unfold vanilla_main_startup
    simp [hne]

/-- Witness for C7 with every variable unset: both startup phases exit with
nonempty missing lists. -/
theorem C7_startup_witness :
    (baml_main_startup true envAllMissing =
        MainOutcome.exited (baml_missing_vars true envAllMissing)
      ∧ baml_missing_vars true envAllMissing ≠ []
      ∧ ∀ p ∈ baml_required_env_vars true envAllMissing, optStrTruthy p.2 = false →
          p.1 ∈ baml_missing_vars true envAllMissing)
    ∧ (vanilla_main_startup envAllMissing =
        MainOutcome.exited (vanilla_missing_vars envAllMissing)
      ∧ vanilla_missing_vars envAllMissing ≠ []
      ∧ ∀ p ∈ vanilla_required_env_vars envAllMissing, optStrTruthy p.2 = false →
          p.1 ∈ vanilla_missing_vars envAllMissing) :=
  ⟨(C7_startup_env_check envAllMissing true).1 (by decide),
   (C7_startup_env_check envAllMissing true).2.1 (by decide)⟩

set_option maxHeartbeats 2000000 in
/-- Claim C8: `_simulate_conversation` always returns one of the fixed
eleven canned strings, and the returned text does not depend on the agent
argument — two arbitrary agents of arbitrary types get the identical
response for every input. -/
theorem C8_canned_responses {α β : Type} (a : α) (b : β) (input : String) :
    simulate_conversation a input ∈ cannedResponses
    ∧ simulate_conversation a input = simulate_conversation b input := by
  constructor
  · simp only [simulate_conversation]
    split_ifs <;> decide
  · rfl

/-- Lookup in a key-indexed map of averages. -/
lemma lookup_map_keys (keys : List String) (f : String → ℚ) (k : String) :
    (keys.map (fun x => (x, f x))).lookup k = if k ∈ keys then some (f k) else none := by
  induction keys with
  | nil => rfl
  | cons a as ih =>
      simp only [List.map_cons, List.lookup, List.mem_cons]
      by_cases hka : k = a
      · subst hka
        simp
      · have : (k == a) = false := by simp [hka]
        simp [this, ih, hka]

/-- When a key is absent from the dict of every result, the averaging loop of
`calculate_metrics` computes 0 instead of dividing by zero. -/
lemma avgForKey_absent (rs : List TestResult) (proj : TestResult → List (String × ℚ))
    (k : String) (h : ∀ r ∈ rs, (proj r).lookup k = none) :
    avgForKey rs proj k = 0 := by
  unfold avgForKey
  have hf : rs.filter (fun r => dictHas (proj r) k) = [] := by
    rw [List.filter_eq_nil_iff]
    intro r hr
    simp [dictHas, h r hr]
  simp [hf]

/-- Claim C10: `calculate_metrics` never divides by zero: with no results of
the requested agent type it returns the all-zero metrics record with empty
average dicts, and any key absent from all matching results averages to 0
(in both the empty and the nonempty case). -/
theorem C10_metrics_safe (results : List TestResult) (agent_type : String) :
    (results.filter (fun r => r.agent_type == agent_type) = [] →
        calculate_metrics results agent_type =
          { agent_type := agent_type, total_tests := 0, avg_latency := [],
            avg_accuracy := [], handoff_success_rate := 0, error_rate := 0,
            context_retention_rate := 0, intent_recognition_rate := 0 })
    ∧ (∀ k, (∀ r ∈ results.filter (fun r => r.agent_type == agent_type),
          r.latency.lookup k = none) →
        dictGet (calculate_metrics results agent_type).avg_latency k 0 = 0)
    ∧ (∀ k, (∀ r ∈ results.filter (fun r => r.agent_type == agent_type),
          r.accuracy.lookup k = none) →
        dictGet (calculate_metrics results agent_type).avg_accuracy k 0 = 0) := by
  refine ⟨fun h => ?_, fun k hk => ?_, fun k hk => ?_⟩
  · simp [calculate_metrics, h]
  · by_cases h : results.filter (fun r => r.agent_type == agent_type) = []
    · simp [calculate_metrics, h, dictGet]
    · unfold calculate_metrics dictGet
      rw [if_neg h]
      simp only
      rw [lookup_map_keys]
      by_cases hk2 : k ∈ latency_keys
      · simp [hk2, avgForKey_absent _ _ _ hk]
      · simp [hk2]
  · by_cases h : results.filter (fun r => r.agent_type == agent_type) = []
    · simp [calculate_metrics, h, dictGet]
    · unfold calculate_metrics dictGet
      rw [if_neg h]
      simp only
      rw [lookup_map_keys]
      by_cases hk2 : k ∈ accuracy_keys
      · simp [hk2, avgForKey_absent _ _ _ hk]
      · simp [hk2]

/-- Witness for C10 on the empty result list: the zero record is returned
and a latency key absent everywhere averages to 0. -/
theorem C10_metrics_witness :
    calculate_metrics [] "baml" =
      { agent_type := "baml", total_tests := 0, avg_latency := [],
        avg_accuracy := [], handoff_success_rate := 0, error_rate := 0,
        context_retention_rate := 0, intent_recognition_rate := 0 }
    ∧ dictGet (calculate_metrics [] "baml").avg_latency "total" 0 = 0 :=
  ⟨(C10_metrics_safe [] "baml").1 rfl,
   (C10_metrics_safe [] "baml").2.1 "total" (by intro r hr; simp at hr)⟩




